import Mathlib

/-!
Verification development for the cinema-chat repository.

Shallow embeddings of:
* the Raspberry-Pi VLC playback service
  (twistedtv-pi-client/video_playback/video_playback_service_vlc.py);
* the FastAPI bot server (cinema-bot-app/backend/src/cinema-bot/server.py);
* the MCP tool RPC client (twistedtv-server/cinema_bot/mcp_client.py);
* the video-response frame processor and running pipeline
  (cinema-bot-app/backend/src/cinema-bot/cinema_bot.py).
-/

namespace VlcService

/-- Kind of a spawned media-player OS process: a content clip started by
`play_video`, or the looping static/idle video started by
`start_static_if_nothing_playing`. -/
inductive ProcKind where
  | content
  | staticLoop
deriving DecidableEq

/-- One spawned media-player OS process.  `pid` is its identity, `alive`
whether the OS process has not yet exited (`poll() is None`). -/
structure MediaProc where
  pid : Nat
  kind : ProcKind
  alive : Bool
deriving DecidableEq

/-- The global state of video_playback_service_vlc.py:
`procs` is the history of spawned OS processes (alive or exited);
`current_process` and `is_playing_static` are the module-level globals;
`monitors` holds the pids a `monitor_playback` thread is waiting on;
`staticPending` records that a `start_static_if_nothing_playing` thread has
been scheduled (by a monitor) but has not yet run;
`nextPid` generates fresh pids. -/
structure ServiceState where
  procs : List MediaProc
  current_process : Option Nat
  is_playing_static : Bool
  monitors : List Nat
  staticPending : Bool
  nextPid : Nat
deriving DecidableEq

/-- Whether some spawned process with this pid is still alive
(`proc.poll() is None`). -/
def pidAlive (procs : List MediaProc) (pid : Nat) : Bool :=
  procs.any fun p => p.pid = pid && p.alive

/-- Effect of `pkill -9 vlc`: every media-player process dies. -/
def killAll (procs : List MediaProc) : List MediaProc :=
  procs.map fun p => { p with alive := false }

/-- Effect of terminating (or of the natural exit of) the process `pid`. -/
def killPid (procs : List MediaProc) (pid : Nat) : List MediaProc :=
  procs.map fun p => if p.pid = pid then { p with alive := false } else p

/-- `current_process and current_process.poll() is None`. -/
def currentAlive (s : ServiceState) : Bool :=
  match s.current_process with
  | some c => pidAlive s.procs c
  | none => false

/-- `start_static_if_nothing_playing`: under the lock, if the tracked
current process is alive, return; otherwise spawn the looping static video
and track it. -/
def start_static_if_nothing_playing (s : ServiceState) : ServiceState :=
  if currentAlive s then s
  else
    { s with
      procs := ⟨s.nextPid, ProcKind.staticLoop, true⟩ :: s.procs
      current_process := some s.nextPid
      is_playing_static := true
      nextPid := s.nextPid + 1 }

/-- Result of the `play_video` function: `(success, message, pid)` collapsed
to the branch taken. -/
inductive PlayStatus where
  | playing
  | fileNotFound
  | startFailed
deriving DecidableEq

/-- `play_video`: validate the file, `pkill -9 vlc` (killing whatever is
running, static or content), clear the tracking globals under the lock,
then `Popen` the content clip, track it and spawn a monitor thread for it.
`fileExists` is whether the path validation passes, `launchOk` whether the
`Popen` call succeeds (its failure is the `except` branch returning
`Failed to start playback`). -/
def play_video (fileExists launchOk : Bool) (s : ServiceState) :
    PlayStatus × ServiceState :=
  if fileExists = false then (PlayStatus.fileNotFound, s)
  else
    let s1 := { s with procs := killAll s.procs }
    let s2 := { s1 with current_process := none, is_playing_static := false }
    if launchOk then
      (PlayStatus.playing,
        { s2 with
          procs := ⟨s2.nextPid, ProcKind.content, true⟩ :: s2.procs
          current_process := some s2.nextPid
          is_playing_static := false
          monitors := s2.nextPid :: s2.monitors
          nextPid := s2.nextPid + 1 })
    else (PlayStatus.startFailed, s2)

/-- `stop_playback`: under the lock, if the tracked process is alive,
terminate it and clear the tracking globals; then call
`start_static_if_nothing_playing` synchronously. -/
def stop_playback (s : ServiceState) : ServiceState :=
  let s1 :=
    match s.current_process with
    | some c =>
      if pidAlive s.procs c then
        { s with procs := killPid s.procs c
                 current_process := none
                 is_playing_static := false }
      else s
    | none => s
  start_static_if_nothing_playing s1


/-- State at service startup: no processes, then the `__main__` block calls
`start_static_if_nothing_playing`. -/
def initialState : ServiceState :=
  start_static_if_nothing_playing ⟨[], none, false, [], false, 0⟩

/-- Number of media-player OS processes alive. -/
def countAlive (procs : List MediaProc) : Nat :=
  (procs.filter fun p => p.alive).length

end VlcService

namespace VlcService

theorem mem_killAll_alive_false {l : List MediaProc} {p : MediaProc}
    (hp : p ∈ killAll l) : p.alive = false := by
  simp only [killAll, List.mem_map] at hp
  obtain ⟨q, _, rfl⟩ := hp
  rfl

theorem countAlive_eq_zero (l : List MediaProc)
    (h : ∀ p ∈ l, p.alive = false) : countAlive l = 0 := by
  simp only [countAlive, List.length_eq_zero, List.filter_eq_nil_iff]
  intro p hp
  simp [h p hp]

theorem countAlive_killAll (l : List MediaProc) : countAlive (killAll l) = 0 :=
  countAlive_eq_zero _ fun _ hp => mem_killAll_alive_false hp

end VlcService

namespace VlcService

/-- Phase of an in-flight `/play` handler in video_playback_service_vlc.py.
The handler is NOT one critical section: after validating the path it runs
`pkill -9 vlc` and `time.sleep(0.2)` holding no lock, then a first
`with process_lock:` window that only clears the tracking globals (it
kills nothing), then builds the command and enters a second
`with process_lock:` window that runs `Popen`.  Other lock-protected
thread bodies (a monitor, a scheduled static starter, a stop handler) can
run between these phases.
`sleeping` is the state after the pkill, during the unlocked sleep;
`cleared` is the state after the first lock window.  `launchOk` records
whether the eventual `Popen` will succeed. -/
inductive PlayPhase where
  | sleeping (launchOk : Bool)
  | cleared (launchOk : Bool)
deriving DecidableEq

/-- Fine-grained state of the service: the fields of `ServiceState` plus
the phase of the (at most one) in-flight `/play` handler and whether an
in-flight `/stop` handler has finished its terminate window and still has
to call `start_static_if_nothing_playing`.  One in-flight request of each
kind is enough for the schedules analysed here. -/
structure FineState where
  procs : List MediaProc
  current_process : Option Nat
  is_playing_static : Bool
  monitors : List Nat
  staticPending : Bool
  playPhase : Option PlayPhase
  stopPending : Bool
  nextPid : Nat
deriving DecidableEq

/-- Body of `start_static_if_nothing_playing` (one lock window) on the
fine-grained state. -/
def fineStartStatic (s : FineState) : FineState :=
  if (match s.current_process with
      | some c => pidAlive s.procs c
      | none => false) then s
  else
    { s with
      procs := ⟨s.nextPid, ProcKind.staticLoop, true⟩ :: s.procs
      current_process := some s.nextPid
      is_playing_static := true
      nextPid := s.nextPid + 1 }

/-- Atomic events of the fine-grained model.  Each event is one unlocked
effect or one lock window of the source:
`playKill` is a `/play` handler (valid file) running `pkill -9 vlc` and
entering its unlocked sleep; `playClearTracking` is its first lock window
(clear `current_process` / `is_playing_static`, killing nothing);
`playLaunch` is its second lock window (`Popen` the clip and track it,
then spawn its monitor) or, when the launch fails, the except branch
returning the start failure; `stopTerminate` is the lock window of
`stop_playback`; `stopStartStatic` is its subsequent
`start_static_if_nothing_playing` call (a separate lock window);
`exits` is the OS letting a process finish; `monitorFires` is a
`monitor_playback` thread returning from `wait()` and running its lock
window (content monitors captured `was_static = False`, so on a match
they schedule the static starter); `staticRuns` is a scheduled
`start_static_if_nothing_playing` thread running its lock window.
A `/play` whose path validation fails returns before the pkill and
changes nothing, so it has no event. -/
inductive FineEvent where
  | playKill (launchOk : Bool)
  | playClearTracking
  | playLaunch
  | stopTerminate
  | stopStartStatic
  | exits (pid : Nat)
  | monitorFires (pid : Nat)
  | staticRuns
deriving DecidableEq

/-- One atomic event of the fine-grained service. -/
def fineStep (s : FineState) : FineEvent → FineState
  | FineEvent.playKill launchOk =>
    if s.playPhase = none then
      { s with procs := killAll s.procs
               playPhase := some (PlayPhase.sleeping launchOk) }
    else s
  | FineEvent.playClearTracking =>
    match s.playPhase with
    | some (PlayPhase.sleeping launchOk) =>
      if s.current_process.isSome then
        { s with current_process := none
                 is_playing_static := false
                 playPhase := some (PlayPhase.cleared launchOk) }
      else { s with playPhase := some (PlayPhase.cleared launchOk) }
    | _ => s
  | FineEvent.playLaunch =>
    match s.playPhase with
    | some (PlayPhase.cleared launchOk) =>
      if launchOk then
        { s with procs := ⟨s.nextPid, ProcKind.content, true⟩ :: s.procs
                 current_process := some s.nextPid
                 is_playing_static := false
                 monitors := s.nextPid :: s.monitors
                 playPhase := none
                 nextPid := s.nextPid + 1 }
      else { s with playPhase := none }
    | _ => s
  | FineEvent.stopTerminate =>
    if s.stopPending = false then
      match s.current_process with
      | some c =>
        if pidAlive s.procs c then
          { s with procs := killPid s.procs c
                   current_process := none
                   is_playing_static := false
                   stopPending := true }
        else { s with stopPending := true }
      | none => { s with stopPending := true }
    else s
  | FineEvent.stopStartStatic =>
    if s.stopPending then fineStartStatic { s with stopPending := false }
    else s
  | FineEvent.exits pid => { s with procs := killPid s.procs pid }
  | FineEvent.monitorFires pid =>
    if s.monitors.contains pid && !pidAlive s.procs pid then
      let s1 := { s with monitors := s.monitors.erase pid }
      if s1.current_process = some pid then
        { s1 with current_process := none
                  is_playing_static := false
                  staticPending := true }
      else s1
    else s
  | FineEvent.staticRuns =>
    if s.staticPending then fineStartStatic { s with staticPending := false }
    else s

/-- Fine-grained state at service startup: no processes, then the
`__main__` block starts the static loop (pid 0). -/
def fineInitial : FineState :=
  fineStartStatic ⟨[], none, false, [], false, none, false, 0⟩

/-- Run a sequence of fine-grained events. -/
def fineRun (s : FineState) (es : List FineEvent) : FineState :=
  es.foldl fineStep s

/-- The racy schedule: play(A) completes undisturbed (killing the startup
static pid 0 and launching content A = pid 1 with its monitor); then
play(B) arrives while A is alive: its pkill kills A and the handler enters
its unlocked 0.2-second sleep; during the sleep the monitor of A returns
from `wait()`, finds `current_process` still equal to A (the handler has
not reached its first lock window), clears the tracking and schedules the
static starter; the starter runs, finds nothing tracked alive and spawns
the static loop S = pid 2; the handler then resumes: its first lock
window only clears the tracking (S stays alive) and its second window
launches content B = pid 3. -/
def racySchedule : List FineEvent :=
  [FineEvent.playKill true, FineEvent.playClearTracking, FineEvent.playLaunch,
   FineEvent.playKill true, FineEvent.monitorFires 1, FineEvent.staticRuns,
   FineEvent.playClearTracking, FineEvent.playLaunch]

end VlcService

namespace VlcService

/-- Evaluation for claim C1 at the failing schedule: play(A) then play(B)
before A exits (the pkill of play(B) is what kills A).  After the first
six events of `racySchedule` the monitor of A has observed the exit of A
and the static starter it scheduled has run: the idle/static loop
(pid 2) is alive and tracked while the play(B) handler is still in its
unlocked sleep — the stale monitor DID start the idle loop even though
play(B) was already in flight, because `current_process` still equalled A
when the monitor fired. -/
theorem stale_monitor_starts_idle_during_play :
    (fineRun fineInitial (racySchedule.take 6)).is_playing_static = true ∧
    (fineRun fineInitial (racySchedule.take 6)).current_process = some 2 ∧
    (⟨2, ProcKind.staticLoop, true⟩ : MediaProc) ∈
      (fineRun fineInitial (racySchedule.take 6)).procs ∧
    (fineRun fineInitial (racySchedule.take 6)).playPhase =
      some (PlayPhase.sleeping true) := by
  decide

/-- Evaluation for claim C2 at the failing schedule: after the full
`racySchedule`, the static loop spawned mid-handler (pid 2) and the new
content clip (pid 3) are BOTH alive — two media-player OS processes at
once — because the first lock window of play(B) only cleared the tracking
globals without killing the static loop that the stale monitor had
started, and the second window then launched B beside it. -/
theorem play_launches_beside_running_static :
    countAlive (fineRun fineInitial racySchedule).procs = 2 ∧
    (⟨2, ProcKind.staticLoop, true⟩ : MediaProc) ∈
      (fineRun fineInitial racySchedule).procs ∧
    (⟨3, ProcKind.content, true⟩ : MediaProc) ∈
      (fineRun fineInitial racySchedule).procs := by
  decide

end VlcService

namespace VlcService

/-- Refutation for claim C9: at service start the static idle loop is
playing; a play request whose media-player launch fails (the `Popen`
except branch) returns the start-failure result, but the idle loop is NOT
restarted: the `pkill` has already killed the static process, no process
is alive afterwards, the static flag is cleared and no idle start is
scheduled, so the display is left blank. -/
theorem play_launch_failure_leaves_display_blank :
    (play_video true false initialState).1 = PlayStatus.startFailed ∧
    countAlive (play_video true false initialState).2.procs = 0 ∧
    (play_video true false initialState).2.is_playing_static = false ∧
    (play_video true false initialState).2.staticPending = false ∧
    (play_video true false initialState).2.current_process = none := by
  decide

/-- Claim C9 as amended: for every state, a play request whose underlying
media-player launch fails returns the start-failure error; it has already
killed every running media process, and it neither starts nor schedules
the idle loop (the pending-idle flag is unchanged and the static flag is
cleared), so nothing is playing afterwards. -/
theorem claim_C9_launch_failure_no_idle_restart (s : ServiceState) :
    (play_video true false s).1 = PlayStatus.startFailed ∧
    countAlive (play_video true false s).2.procs = 0 ∧
    (play_video true false s).2.is_playing_static = false ∧
    (play_video true false s).2.staticPending = s.staticPending ∧
    (play_video true false s).2.current_process = none := by
  refine ⟨rfl, ?_, rfl, rfl, rfl⟩
  show countAlive (killAll s.procs) = 0
  exact countAlive_killAll s.procs

end VlcService

namespace BotServer

/-- Maximum number of bot instances allowed per room (server.py). -/
def MAX_BOTS_PER_ROOM : Nat := 1

/-- Association-list lookup modelling a Python dict read. -/
def dictGet {β : Type} : List (String × β) → String → Option β
  | [], _ => none
  | (k0, v0) :: rest, k => if k0 = k then some v0 else dictGet rest k

/-- Association-list overwrite modelling a Python dict assignment. -/
def dictSet {β : Type} : List (String × β) → String → β → List (String × β)
  | [], k, v => [(k, v)]
  | (k0, v0) :: rest, k, v =>
    if k0 = k then (k, v) :: rest else (k0, v0) :: dictSet rest k v

/-- Association-list delete modelling a Python `del d[k]`. -/
def dictRemove {β : Type} : List (String × β) → String → List (String × β)
  | [], _ => []
  | (k0, v0) :: rest, k =>
    if k0 = k then dictRemove rest k else (k0, v0) :: dictRemove rest k

/-- Nat-keyed variants for the pid-keyed `bot_procs` dict. -/
def pidGet {β : Type} : List (Nat × β) → Nat → Option β
  | [], _ => none
  | (k0, v0) :: rest, k => if k0 = k then some v0 else pidGet rest k

def pidSet {β : Type} : List (Nat × β) → Nat → β → List (Nat × β)
  | [], k, v => [(k, v)]
  | (k0, v0) :: rest, k, v =>
    if k0 = k then (k, v) :: rest else (k0, v0) :: pidSet rest k v

def pidRemove {β : Type} : List (Nat × β) → Nat → List (Nat × β)
  | [], _ => []
  | (k0, v0) :: rest, k =>
    if k0 = k then pidRemove rest k else (k0, v0) :: pidRemove rest k

/-- An entry of `bot_procs`: the subprocess handle and the room URL it was
spawned for; `alive` is `proc.poll() is None`. -/
structure BotProc where
  room_url : String
  alive : Bool
deriving DecidableEq

/-- An entry of `active_rooms` (created by the `/connect` endpoint). -/
structure RoomInfo where
  identifier : String
  bot_pid : Option Nat
  pi_client_pid : Option Nat
  video_service_pid : Option Nat
deriving DecidableEq

/-- A `participant_status` record as built by `/update-status`:
`status`, `status_context`, `ui_override`, and the `context` dict with its
`messages` and `status_messages` lists; `total_message_count` is the key
that `/conversation-status` writes into the shared context dict. -/
structure ParticipantRecord where
  status : String
  status_context : Option String
  ui_override : Option String
  messages : List String
  status_messages : List String
  total_message_count : Option Nat
deriving DecidableEq

/-- The module-level dicts of server.py. -/
structure ServerState where
  bot_procs : List (Nat × BotProc)
  active_rooms : List (String × RoomInfo)
  bot_status_rooms : List String
  participant_status : List (String × ParticipantRecord)
  next_pid : Nat
deriving DecidableEq

def emptyServer : ServerState := ⟨[], [], [], [], 0⟩

/-- Number of live bot processes tracked for a room:
`sum(1 for proc in bot_procs.values() if proc[1] == room_url and proc[0].poll() is None)`. -/
def num_bots_in_room (s : ServerState) (room_url : String) : Nat :=
  (s.bot_procs.filter fun e => e.2.room_url = room_url && e.2.alive).length

/-- The `GET /` endpoint `start_agent`: counts the live bots already in the
room; if at least `MAX_BOTS_PER_ROOM`, raises HTTP 500 (`Except.error`)
and spawns nothing; otherwise spawns a bot subprocess and records it in
`bot_procs`.  `spawn_ok` is whether the `Popen` call succeeds. -/
def start_agent (room_url : String) (spawn_ok : Bool) (s : ServerState) :
    Except String Nat × ServerState :=
  if num_bots_in_room s room_url ≥ MAX_BOTS_PER_ROOM then
    (Except.error "Max bot limit reached for room", s)
  else if spawn_ok then
    (Except.ok s.next_pid,
      { s with
        bot_procs := pidSet s.bot_procs s.next_pid ⟨room_url, true⟩
        next_pid := s.next_pid + 1 })
  else (Except.error "Failed to start subprocess", s)

/-- The `POST /connect` endpoint `rtvi_connect`: spawns a bot subprocess
with a fresh identifier and records it in `bot_procs` and `active_rooms`.
It performs NO duplicate-bot check before spawning. -/
def rtvi_connect (room_url identifier : String) (spawn_ok : Bool)
    (s : ServerState) : Except String (String × String) × ServerState :=
  if spawn_ok then
    (Except.ok (room_url, identifier),
      { s with
        bot_procs := pidSet s.bot_procs s.next_pid ⟨room_url, true⟩
        active_rooms := dictSet s.active_rooms room_url
          ⟨identifier, some s.next_pid, none, none⟩
        next_pid := s.next_pid + 1 })
  else (Except.error "Failed to start subprocess", s)

/-- Outcome of `proc.terminate(); proc.wait(timeout=5)` on the local bot:
it exits in time, it times out and is force-killed, or some other
exception is raised (caught and recorded). -/
inductive LocalTermOutcome where
  | exitsInTime
  | timesOutThenKilled
  | raises (msg : String)
deriving DecidableEq

/-- Outcome of `subprocess.run(['ssh', host, 'kill pid'], check=False,
timeout=5)`: the ssh command completes with some exit status (check=False
discards it), or it raises (timeout / launch failure). -/
inductive RemoteKillOutcome where
  | completes (returncode : Int)
  | timesOut (msg : String)
deriving DecidableEq

/-- The cleanup report built by `cleanup_room`. -/
structure CleanupResult where
  room_url : String
  bot_terminated : Bool
  pi_client_terminated : Bool
  video_service_terminated : Bool
  errors : List String
deriving DecidableEq

/-- `cleanup_room`: terminate the tracked bot process (recording an error
when termination raises) and drop it from `bot_procs`; best-effort ssh
kill of the remote Pi client and video service pids (recording an error
only when `subprocess.run` raises — a completed ssh command is marked
terminated whatever its exit status, since `check=False`); then delete the
room from `bot_status`, the identifier from `participant_status` and the
room from `active_rooms`.  Every exception-prone call sits in a
try/except, so the function is total: it always returns a report. -/
def cleanup_room (room_url : String) (botOutcome : LocalTermOutcome)
    (piOutcome videoOutcome : RemoteKillOutcome) (s : ServerState) :
    CleanupResult × ServerState :=
  match dictGet s.active_rooms room_url with
  | none =>
    ({ room_url := room_url, bot_terminated := false
       pi_client_terminated := false, video_service_terminated := false
       errors := ["Room not found in active rooms"] }, s)
  | some room_info =>
    let botStep : Bool × List String × List (Nat × BotProc) :=
      match room_info.bot_pid with
      | none => (false, [], s.bot_procs)
      | some bot_pid =>
        match pidGet s.bot_procs bot_pid with
        | none => (false, [], s.bot_procs)
        | some _ =>
          match botOutcome with
          | LocalTermOutcome.exitsInTime =>
            (true, [], pidRemove s.bot_procs bot_pid)
          | LocalTermOutcome.timesOutThenKilled =>
            (true, [], pidRemove s.bot_procs bot_pid)
          | LocalTermOutcome.raises msg =>
            (false, ["Error terminating bot: " ++ msg],
              pidRemove s.bot_procs bot_pid)
    let piStep : Bool × List String :=
      match room_info.pi_client_pid with
      | none => (false, [])
      | some _ =>
        match piOutcome with
        | RemoteKillOutcome.completes _ => (true, [])
        | RemoteKillOutcome.timesOut msg =>
          (false, ["Error terminating Pi client: " ++ msg])
    let videoStep : Bool × List String :=
      match room_info.video_service_pid with
      | none => (false, [])
      | some _ =>
        match videoOutcome with
        | RemoteKillOutcome.completes _ => (true, [])
        | RemoteKillOutcome.timesOut msg =>
          (false, ["Error terminating video service: " ++ msg])
    ({ room_url := room_url
       bot_terminated := botStep.1
       pi_client_terminated := piStep.1
       video_service_terminated := videoStep.1
       errors := botStep.2.1 ++ piStep.2 ++ videoStep.2 },
     { s with
       bot_procs := botStep.2.2
       bot_status_rooms := s.bot_status_rooms.filter fun r => !(r = room_url)
       participant_status :=
         if room_info.identifier ≠ "" then
           dictRemove s.participant_status room_info.identifier
         else s.participant_status
       active_rooms := dictRemove s.active_rooms room_url })

end BotServer

namespace BotServer

/-- The context part of a `/conversation-status` response. -/
structure StatusContextResp where
  status_messages : List String
  total_message_count : Nat
deriving DecidableEq

/-- A `/conversation-status` response: the `status` field and the context;
`context = none` models the default `"context": \x7b\x7d` returned when the
identifier is unknown. -/
structure StatusResponse where
  status : String
  context : Option StatusContextResp
deriving DecidableEq

/-- `GET /conversation-status/IDENT?last_seen=K` (`get_conversation_status`).
If the identifier is unknown, returns the default
`status initializing / empty context` and touches nothing.  Otherwise the
code takes `status_data = participant_status[identifier].copy()` — a
SHALLOW copy, so `status_data["context"]` is the very dict stored in
`participant_status` — and then assigns
`status_data["context"]["status_messages"] = all_messages[last_seen:]` and
`status_data["context"]["total_message_count"] = len(all_messages)`.
Both writes therefore go through to the stored record, which the second
component of the result captures. -/
def get_conversation_status (identifier : String) (last_seen : Nat)
    (s : ServerState) : StatusResponse × ServerState :=
  match dictGet s.participant_status identifier with
  | some record =>
    let all_messages := record.status_messages
    let new_messages := all_messages.drop last_seen
    ({ status := record.status
       context := some ⟨new_messages, all_messages.length⟩ },
     { s with
       participant_status := dictSet s.participant_status identifier
         { record with
           status_messages := new_messages
           total_message_count := some all_messages.length } })
  | none => ({ status := "initializing", context := none }, s)

/-- `POST /update-status` (`update_conversation_status`): create the
record if absent, update `status` / `status_context` / `ui_override`, and
append `data.get("status", "")` to `context["status_messages"]` when it is
non-empty. -/
def update_conversation_status (identifier : String)
    (data_status data_status_context data_ui_override : Option String)
    (s : ServerState) : ServerState :=
  let record0 :=
    match dictGet s.participant_status identifier with
    | some r => r
    | none =>
      { status := "initializing", status_context := none, ui_override := none
        messages := [], status_messages := [], total_message_count := none }
  let record1 :=
    { record0 with
      status := data_status.getD record0.status
      status_context := data_status_context
      ui_override := data_ui_override }
  let status_text := data_status.getD ""
  let record2 :=
    if status_text ≠ "" then
      { record1 with status_messages := record1.status_messages ++ [status_text] }
    else record1
  { s with participant_status := dictSet s.participant_status identifier record2 }

theorem dictGet_dictRemove {β : Type} (l : List (String × β)) (k : String) :
    dictGet (dictRemove l k) k = none := by
  induction l with
  | nil => rfl
  | cons e rest ih =>
    simp only [dictRemove]
    by_cases h : e.1 = k
    · rw [if_pos h]
      exact ih
    · rw [if_neg h]
      simp only [dictGet]
      rw [if_neg h]
      exact ih

end BotServer

namespace BotServer

deriving instance DecidableEq for Except

/-- Evaluation for claim C3: the constant `MAX_BOTS_PER_ROOM = 1` and the
`start_agent` endpoint enforce at most one live bot per room, but the
`rtvi_connect` (`POST /connect`) endpoint spawns a bot with no duplicate
check: two connect requests for the same room (the room URL is pinned when
`DAILY_SAMPLE_ROOM_URL` is set) leave TWO live bot processes in the room,
while `start_agent` on the same state correctly rejects. -/
theorem rtvi_connect_spawns_duplicate_bot :
    (rtvi_connect "roomR" "id2" true
        (rtvi_connect "roomR" "id1" true emptyServer).2).1 =
      Except.ok ("roomR", "id2") ∧
    num_bots_in_room
      (rtvi_connect "roomR" "id2" true
        (rtvi_connect "roomR" "id1" true emptyServer).2).2 "roomR" = 2 ∧
    (start_agent "roomR" true
        (rtvi_connect "roomR" "id1" true emptyServer).2).1 =
      Except.error "Max bot limit reached for room" ∧
    (start_agent "roomR" true
        (rtvi_connect "roomR" "id1" true emptyServer).2).2 =
      (rtvi_connect "roomR" "id1" true emptyServer).2 := by
  decide

/-- Refutation for claim C4: for a registered session whose remote Pi
client is unreachable in a way that makes the ssh kill command COMPLETE
with a failing exit status (ssh exits 255 on connection failure), the
report marks the remote handle as terminated and records NO error,
because `subprocess.run(..., check=False)` discards the exit status; the
failed remote termination is thus not recorded in the errors. -/
theorem cleanup_nonzero_ssh_exit_not_reported :
    (cleanup_room "R" LocalTermOutcome.exitsInTime
        (RemoteKillOutcome.completes 255) (RemoteKillOutcome.completes 0)
        ⟨[], [("R", ⟨"id1", none, some 4242, none⟩)], [],
          [("id1", ⟨"active", none, none, [], ["hello"], none⟩)], 0⟩).1.pi_client_terminated
      = true ∧
    (cleanup_room "R" LocalTermOutcome.exitsInTime
        (RemoteKillOutcome.completes 255) (RemoteKillOutcome.completes 0)
        ⟨[], [("R", ⟨"id1", none, some 4242, none⟩)], [],
          [("id1", ⟨"active", none, none, [], ["hello"], none⟩)], 0⟩).1.errors
      = [] := by
  decide

/-- Claim C4 as amended: for every registered session, cleanup (a total
function — every exception-prone call is wrapped) always removes the room
from `active_rooms` and deletes the participant status record; a remote
kill that raises (times out) leaves the handle marked not-terminated and
is recorded in the errors; a remote kill whose ssh command completes is
marked terminated whatever its exit status. -/
theorem claim_C4_cleanup_room_total (s : ServerState) (room_url : String)
    (info : RoomInfo) (botOut : LocalTermOutcome)
    (piOut videoOut : RemoteKillOutcome)
    (hreg : dictGet s.active_rooms room_url = some info)
    (hid : info.identifier ≠ "") :
    dictGet (cleanup_room room_url botOut piOut videoOut s).2.active_rooms
      room_url = none ∧
    dictGet (cleanup_room room_url botOut piOut videoOut s).2.participant_status
      info.identifier = none ∧
    (∀ msg, piOut = RemoteKillOutcome.timesOut msg →
      (cleanup_room room_url botOut piOut videoOut s).1.pi_client_terminated
        = false ∧
      (info.pi_client_pid.isSome = true →
        ("Error terminating Pi client: " ++ msg) ∈
          (cleanup_room room_url botOut piOut videoOut s).1.errors)) ∧
    (∀ rc, piOut = RemoteKillOutcome.completes rc →
      info.pi_client_pid.isSome = true →
      (cleanup_room room_url botOut piOut videoOut s).1.pi_client_terminated
        = true) := by
  simp only [cleanup_room, hreg]
  refine ⟨?_, ?_, ?_, ?_⟩
  · exact dictGet_dictRemove s.active_rooms room_url
  · show dictGet (if info.identifier ≠ "" then
        dictRemove s.participant_status info.identifier
      else s.participant_status) info.identifier = none
    rw [if_pos hid]
    exact dictGet_dictRemove s.participant_status info.identifier
  · intro msg hpi
    subst hpi
    constructor
    · cases hp : info.pi_client_pid <;> simp [hp]
    · intro hsome
      cases hp : info.pi_client_pid with
      | none => rw [hp] at hsome; exact absurd hsome (by simp)
      | some pid => simp [hp, List.mem_append]
  · intro rc hpi hsome
    subst hpi
    cases hp : info.pi_client_pid with
    | none => rw [hp] at hsome; exact absurd hsome (by simp)
    | some pid => simp [hp]

/-- Concrete instantiation of the cleanup theorem: a session for room R
with an unreachable (timing-out) Pi client handle. -/
theorem claim_C4_cleanup_room_total_witness :
    dictGet (⟨[(7, ⟨"R", true⟩)], [("R", ⟨"id1", some 7, some 4242, none⟩)],
        ["R"], [("id1", ⟨"active", none, none, [], ["hello"], none⟩)],
        8⟩ : ServerState).active_rooms "R" =
      some ⟨"id1", some 7, some 4242, none⟩ ∧
    (⟨"id1", some 7, some 4242, none⟩ : RoomInfo).identifier ≠ "" ∧
    (dictGet (cleanup_room "R" LocalTermOutcome.exitsInTime
        (RemoteKillOutcome.timesOut "Command timed out")
        (RemoteKillOutcome.completes 0)
        ⟨[(7, ⟨"R", true⟩)], [("R", ⟨"id1", some 7, some 4242, none⟩)],
          ["R"], [("id1", ⟨"active", none, none, [], ["hello"], none⟩)],
          8⟩).2.active_rooms "R" = none ∧
      dictGet (cleanup_room "R" LocalTermOutcome.exitsInTime
        (RemoteKillOutcome.timesOut "Command timed out")
        (RemoteKillOutcome.completes 0)
        ⟨[(7, ⟨"R", true⟩)], [("R", ⟨"id1", some 7, some 4242, none⟩)],
          ["R"], [("id1", ⟨"active", none, none, [], ["hello"], none⟩)],
          8⟩).2.participant_status "id1" = none ∧
      (∀ msg, (RemoteKillOutcome.timesOut "Command timed out" : RemoteKillOutcome)
          = RemoteKillOutcome.timesOut msg →
        (cleanup_room "R" LocalTermOutcome.exitsInTime
          (RemoteKillOutcome.timesOut "Command timed out")
          (RemoteKillOutcome.completes 0)
          ⟨[(7, ⟨"R", true⟩)], [("R", ⟨"id1", some 7, some 4242, none⟩)],
            ["R"], [("id1", ⟨"active", none, none, [], ["hello"], none⟩)],
            8⟩).1.pi_client_terminated = false ∧
        ((⟨"id1", some 7, some 4242, none⟩ : RoomInfo).pi_client_pid.isSome = true →
          ("Error terminating Pi client: " ++ msg) ∈
            (cleanup_room "R" LocalTermOutcome.exitsInTime
              (RemoteKillOutcome.timesOut "Command timed out")
              (RemoteKillOutcome.completes 0)
              ⟨[(7, ⟨"R", true⟩)], [("R", ⟨"id1", some 7, some 4242, none⟩)],
                ["R"], [("id1", ⟨"active", none, none, [], ["hello"], none⟩)],
                8⟩).1.errors)) ∧
      (∀ rc, (RemoteKillOutcome.timesOut "Command timed out" : RemoteKillOutcome)
          = RemoteKillOutcome.completes rc →
        (⟨"id1", some 7, some 4242, none⟩ : RoomInfo).pi_client_pid.isSome = true →
        (cleanup_room "R" LocalTermOutcome.exitsInTime
          (RemoteKillOutcome.timesOut "Command timed out")
          (RemoteKillOutcome.completes 0)
          ⟨[(7, ⟨"R", true⟩)], [("R", ⟨"id1", some 7, some 4242, none⟩)],
            ["R"], [("id1", ⟨"active", none, none, [], ["hello"], none⟩)],
            8⟩).1.pi_client_terminated = true)) :=
  ⟨by decide, by decide,
    claim_C4_cleanup_room_total
      ⟨[(7, ⟨"R", true⟩)], [("R", ⟨"id1", some 7, some 4242, none⟩)],
        ["R"], [("id1", ⟨"active", none, none, [], ["hello"], none⟩)], 8⟩
      "R" ⟨"id1", some 7, some 4242, none⟩ LocalTermOutcome.exitsInTime
      (RemoteKillOutcome.timesOut "Command timed out")
      (RemoteKillOutcome.completes 0) (by decide) (by decide)⟩

end BotServer

namespace BotServer

/-- Evaluation for claim C6 at the failing input: append "a" then "b" for
participant p1, then read twice with `last_seen = 1`.  The first read
returns the correct suffix and total, but — because the read shallow-copies
the record and then assigns into the shared context dict — it truncates
the stored log, so the second identical read returns an empty list and
total 1, instead of the entries appended at positions at or after 1
(`["b"]`, total 2). -/
theorem pagination_second_read_diverges :
    (get_conversation_status "p1" 1
        (update_conversation_status "p1" (some "b") none none
          (update_conversation_status "p1" (some "a") none none
            emptyServer))).1.context = some ⟨["b"], 2⟩ ∧
    (get_conversation_status "p1" 1
        (get_conversation_status "p1" 1
          (update_conversation_status "p1" (some "b") none none
            (update_conversation_status "p1" (some "a") none none
              emptyServer))).2).1.context = some ⟨[], 1⟩ ∧
    (get_conversation_status "p1" 1
        (get_conversation_status "p1" 1
          (update_conversation_status "p1" (some "b") none none
            (update_conversation_status "p1" (some "a") none none
              emptyServer))).2).1.context ≠
      some ⟨["a", "b"].drop 1, ["a", "b"].length⟩ := by
  decide

/-- Evaluation for claim C7 at the failing input: the stored log for p2 is
`["a", "b"]`; a single status read with `last_seen = 1` rewrites the
stored log to `["b"]` (the `copy()` is shallow, so the assignment into
`context` mutates the stored record), so the read is not pure and two
consecutive identical reads disagree. -/
theorem status_read_mutates_stored_log :
    (dictGet (update_conversation_status "p2" (some "b") none none
        (update_conversation_status "p2" (some "a") none none
          emptyServer)).participant_status "p2").map
      (fun r => r.status_messages) = some ["a", "b"] ∧
    (dictGet (get_conversation_status "p2" 1
        (update_conversation_status "p2" (some "b") none none
          (update_conversation_status "p2" (some "a") none none
            emptyServer))).2.participant_status "p2").map
      (fun r => r.status_messages) = some ["b"] ∧
    (get_conversation_status "p2" 1
        (update_conversation_status "p2" (some "b") none none
          (update_conversation_status "p2" (some "a") none none
            emptyServer))).2 ≠
      (update_conversation_status "p2" (some "b") none none
        (update_conversation_status "p2" (some "a") none none
          emptyServer)) := by
  decide

/-- Claim C10: for every identifier with no stored participant status, the
conversation-status read returns the default response with status
`initializing` and an empty context and leaves the state unchanged (no
entry is created). -/
theorem claim_C10_unknown_identifier_default (s : ServerState)
    (identifier : String) (last_seen : Nat)
    (h : dictGet s.participant_status identifier = none) :
    (get_conversation_status identifier last_seen s).1 =
      ⟨"initializing", none⟩ ∧
    (get_conversation_status identifier last_seen s).2 = s := by
  unfold get_conversation_status
  rw [h]
  exact ⟨rfl, rfl⟩

/-- Concrete instantiation of the unknown-identifier read. -/
theorem claim_C10_unknown_identifier_default_witness :
    dictGet emptyServer.participant_status "ghost" = none ∧
    ((get_conversation_status "ghost" 3 emptyServer).1 =
        ⟨"initializing", none⟩ ∧
      (get_conversation_status "ghost" 3 emptyServer).2 = emptyServer) :=
  ⟨rfl, claim_C10_unknown_identifier_default emptyServer "ghost" 3 rfl⟩

end BotServer

namespace McpClient

/-- Behaviour of the MCP worker for one tool call: it replies within the
10-second response timeout (with a usable text content, or with a
response carrying no content — the `Unexpected response` branch), or it
hangs past the timeout. -/
inductive WorkerBehavior where
  | replies (text : Option String)
  | hangs
deriving DecidableEq

/-- The value `MCPClient.call_tool` returns.  Every branch RETURNS a value
(the error branches return a JSON error string); none raises an exception
that would terminate the session. -/
inductive ToolCallResult where
  | content (text : String)
  | busyError
  | timeoutError
  | unexpectedResponseError
deriving DecidableEq

/-- The per-client state: whether the internal `asyncio.Lock` is held (by
a stuck concurrent call) and the monotonically increasing request id. -/
structure ClientState where
  lockHeld : Bool
  request_id : Nat
deriving DecidableEq

/-- `MCPClient.call_tool`: acquire the lock with a 15-second bound — if it
is held by a stuck call, return the busy error without touching the
stream or the id.  Otherwise increment `request_id`, send the request
and read the response with a 10-second timeout: a timeout returns the
`MCP server timeout` error value, a contentless response returns the
unexpected-response error, and in every case the `finally` block releases
the lock. -/
def call_tool (worker : WorkerBehavior) (s : ClientState) :
    ToolCallResult × ClientState :=
  if s.lockHeld then (ToolCallResult.busyError, s)
  else
    match worker with
    | WorkerBehavior.hangs =>
      (ToolCallResult.timeoutError,
        { lockHeld := false, request_id := s.request_id + 1 })
    | WorkerBehavior.replies (some text) =>
      (ToolCallResult.content text,
        { lockHeld := false, request_id := s.request_id + 1 })
    | WorkerBehavior.replies none =>
      (ToolCallResult.unexpectedResponseError,
        { lockHeld := false, request_id := s.request_id + 1 })

/-- Claim C8: when the worker does not respond within the response
timeout, `call_tool` returns the worker-timeout error as a value (the
embedding is a total function: no branch raises), the lock is released
afterwards, and a subsequent call can acquire it (it never observes the
busy error). -/
theorem claim_C8_timeout_returns_and_releases_lock (s : ClientState)
    (h : s.lockHeld = false) :
    (call_tool WorkerBehavior.hangs s).1 = ToolCallResult.timeoutError ∧
    (call_tool WorkerBehavior.hangs s).2.lockHeld = false ∧
    (∀ worker, (call_tool worker (call_tool WorkerBehavior.hangs s).2).1 ≠
      ToolCallResult.busyError) := by
  unfold call_tool
  rw [h]
  refine ⟨rfl, rfl, ?_⟩
  intro worker
  cases worker with
  | hangs => simp
  | replies t => cases t <;> simp

/-- Concrete instantiation: a timed-out call from the idle client state. -/
theorem claim_C8_timeout_witness :
    (⟨false, 0⟩ : ClientState).lockHeld = false ∧
    ((call_tool WorkerBehavior.hangs ⟨false, 0⟩).1 =
        ToolCallResult.timeoutError ∧
      (call_tool WorkerBehavior.hangs ⟨false, 0⟩).2.lockHeld = false ∧
      (∀ worker,
        (call_tool worker (call_tool WorkerBehavior.hangs ⟨false, 0⟩).2).1 ≠
          ToolCallResult.busyError)) :=
  ⟨rfl, claim_C8_timeout_returns_and_releases_lock ⟨false, 0⟩ rfl⟩

end McpClient

namespace CinemaBot

/-- The frame processors appearing in cinema_bot.py. -/
inductive PipeProc where
  | transportInput
  | rtviProc
  | sttService
  | contextAggregatorUser
  | llmService
  | videoResponseProcessor
  | transportOutput
  | contextAggregatorAssistant
deriving DecidableEq, BEq

/-- The processor list passed to `Pipeline([...])` in `run_bot`.  The
`video_response_processor` element is COMMENTED OUT in the source
(`TEMPORARILY DISABLED - debugging initialization issue`), so the running
pipeline is transport input, rtvi, stt, user context aggregator, llm,
transport output, assistant context aggregator. -/
def conversation_pipeline : List PipeProc :=
  [PipeProc.transportInput, PipeProc.rtviProc, PipeProc.sttService,
   PipeProc.contextAggregatorUser, PipeProc.llmService,
   PipeProc.transportOutput, PipeProc.contextAggregatorAssistant]

/-- The frames `VideoResponseProcessor.process_frame` dispatches on.  A
`functionCallResult` carries `frame.result.get("response")` when the
result is a dict. -/
inductive BotFrame where
  | textFrame (text : String)
  | functionCallInProgress (function_name : String)
  | functionCallResult (response : Option String)
  | otherFrame
deriving DecidableEq

inductive Direction where
  | downstream
  | upstream
deriving DecidableEq

/-- The mutable fields of `VideoResponseProcessor`:
`pending_function_result` is `none` when no function result is pending and
`some r` when a dict result with optional `response` key `r` is pending;
`function_was_called` tracks whether a tool call was seen this turn;
`has_context_aggregator` is whether a context aggregator was passed in. -/
structure VRPState where
  pending_function_result : Option (Option String)
  function_was_called : Bool
  has_context_aggregator : Bool
deriving DecidableEq

/-- The observable effects of one `process_frame` call: the frames pushed
on downstream (what can reach the user-visible channel), the corrective
messages pushed into the model context via
`context_aggregator.push_messages`, and the Status Log appends it performs
(`process_frame` never calls the status updater, so this list is empty in
every branch). -/
structure VRPEffects where
  pushed : List BotFrame
  injected_corrections : List String
  status_log_appends : List String
deriving DecidableEq

/-- Opening sentences of the correction message injected on a protocol
violation (the source message continues demanding a
`search_and_play_video` call). -/
def correction_message : String :=
  "ERROR: You did not call the search_and_play_video function. " ++
  "You MUST call this function to respond."

/-- `VideoResponseProcessor.process_frame`, branch for branch:
function-call progress and result frames are passed through and recorded;
a downstream text frame is replaced by a pending video description when
one is present, otherwise it is blocked — with a correction injected into
the model context when no function was called; other frames pass
through. -/
def process_frame (s : VRPState) (frame : BotFrame) (direction : Direction) :
    VRPEffects × VRPState :=
  match frame with
  | BotFrame.functionCallInProgress _ =>
    (⟨[frame], [], []⟩, { s with function_was_called := true })
  | BotFrame.functionCallResult response =>
    (⟨[frame], [], []⟩,
      { s with pending_function_result := some response
               function_was_called := true })
  | BotFrame.textFrame _ =>
    match direction with
    | Direction.upstream => (⟨[frame], [], []⟩, s)
    | Direction.downstream =>
      match s.pending_function_result with
      | some (some video_description) =>
        (⟨[BotFrame.textFrame video_description], [], []⟩,
          { s with pending_function_result := none
                   function_was_called := false })
      | _ =>
        if s.function_was_called = false then
          if s.has_context_aggregator then
            (⟨[], [correction_message], []⟩, s)
          else (⟨[], [], []⟩, s)
        else (⟨[], [], []⟩, s)
  | BotFrame.otherFrame => (⟨[frame], [], []⟩, s)

/-- Whether a processor can suppress a plain text frame travelling
downstream: only the `VideoResponseProcessor` blocks text frames; every
other processor in the pipeline passes them on. -/
def suppresses_plain_text : PipeProc → Bool
  | PipeProc.videoResponseProcessor => true
  | _ => false

/-- The processors a text frame emitted by the LLM traverses before it
reaches the transport output (the user-visible channel). -/
def between_llm_and_output (procs : List PipeProc) : List PipeProc :=
  ((procs.dropWhile fun p => !(p == PipeProc.llmService)).drop 1).takeWhile
    fun p => !(p == PipeProc.transportOutput)

/-- Whether a plain text frame emitted by the LLM reaches the transport
output unsuppressed. -/
def llm_text_reaches_output (procs : List PipeProc) : Bool :=
  (between_llm_and_output procs).all fun p => !(suppresses_plain_text p)

/-- Refutation for claim C5: the `VideoResponseProcessor` is not an
element of the running conversation pipeline (it is commented out), and
consequently a plain text turn emitted by the model reaches the
user-visible transport output unsuppressed — the running pipeline does
not enforce the protocol. -/
theorem pipeline_lacks_video_response_processor :
    conversation_pipeline.contains PipeProc.videoResponseProcessor = false ∧
    llm_text_reaches_output conversation_pipeline = true := by
  decide

/-- Claim C5 as amended: `VideoResponseProcessor.process_frame`, on a
model turn that emits plain text downstream with no pending function
result and no prior function call (state `WAITING_FOR_USER`), pushes
nothing to the user-visible channel, appends no entry to the status log,
injects the corrective instruction into the model context and leaves its
state unchanged — but this processor is commented out of the running
conversation pipeline, which therefore lets the text through. -/
theorem claim_C5_violation_handling (s : VRPState) (text : String)
    (hpend : s.pending_function_result = none)
    (hcall : s.function_was_called = false)
    (hagg : s.has_context_aggregator = true) :
    (process_frame s (BotFrame.textFrame text) Direction.downstream).1 =
      ⟨[], [correction_message], []⟩ ∧
    (process_frame s (BotFrame.textFrame text) Direction.downstream).2 = s ∧
    conversation_pipeline.contains PipeProc.videoResponseProcessor = false := by
  unfold process_frame
  rw [hpend, hcall, hagg]
  exact ⟨rfl, rfl, by decide⟩

/-- Concrete instantiation of the violation-handling theorem at the
initial processor state. -/
theorem claim_C5_violation_handling_witness :
    (⟨none, false, true⟩ : VRPState).pending_function_result = none ∧
    (⟨none, false, true⟩ : VRPState).function_was_called = false ∧
    (⟨none, false, true⟩ : VRPState).has_context_aggregator = true ∧
    ((process_frame ⟨none, false, true⟩ (BotFrame.textFrame "hello there")
        Direction.downstream).1 = ⟨[], [correction_message], []⟩ ∧
      (process_frame ⟨none, false, true⟩ (BotFrame.textFrame "hello there")
        Direction.downstream).2 = ⟨none, false, true⟩ ∧
      conversation_pipeline.contains PipeProc.videoResponseProcessor = false) :=
  ⟨rfl, rfl, rfl,
    claim_C5_violation_handling ⟨none, false, true⟩ "hello there" rfl rfl rfl⟩

end CinemaBot
